import Mathlib

/-!
# Verification of the diago DTMF detector and ringtone generator

Shallow embedding of `media/rtp_dtmf_reader.go` (the RFC 2833/4733
telephone-event detector: state machine, detected-symbol latch and
streaming adapter) and of `ringtone.go`'s `generateRingTonePCM`.

Go machine integers are modelled as `Nat` (all the detector does with
them is compare for equality); `rune` is modelled as `Char`; the
fallible decoder returns `Option`.  Stateful methods on `*RTPDtmfReader`
become functions from the state record to the updated state record; the
packet header the detector polls from its `RTPPacketReader` collaborator
is passed as an explicit argument.
-/

namespace media

/-- A decoded RFC 2833 telephone event (struct `DTMFEvent`). -/
structure DTMFEvent where
  Event : Nat
  EndOfEvent : Bool
  Volume : Nat
  Duration : Nat
  deriving Repr, DecidableEq

/-- The slice of the negotiated codec that `rtp_dtmf_reader.go` reads:
its RTP payload type. -/
structure Codec where
  PayloadType : Nat
  deriving Repr, DecidableEq

/-- The slice of the RTP packet header that the detector reads from its
`RTPPacketReader` collaborator: payload type and timestamp of the most
recently received packet. -/
structure RTPHeader where
  PayloadType : Nat
  Timestamp : Nat
  deriving Repr, DecidableEq

/-- The mutable state of struct `RTPDtmfReader`.  The `reader` and
`packetReader` collaborators are not part of the state: their outputs
are passed to `Read` as explicit inputs. -/
structure RTPDtmfReader where
  codec : Codec
  lastEvent : Nat
  lastTimestamp : Nat
  endProcessed : Bool
  dtmf : Char
  dtmfSet : Bool
  deriving Repr, DecidableEq

/-- Constructor `NewRTPDTMFReader`.  The variadic `minDuration`
parameter is modelled as a list; the Go code ignores it.  Go zero
values give `lastTimestamp = 0`, `endProcessed = false`,
`dtmf = rune 0`, `dtmfSet = false`; `lastEvent` is initialised to the
sentinel 255. -/
def NewRTPDTMFReader (codec : Codec) (minDuration : List Nat) : RTPDtmfReader :=
  { codec := codec
    lastEvent := 255
    lastTimestamp := 0
    endProcessed := false
    dtmf := Char.ofNat 0
    dtmfSet := false }

/-- Modelled from the spec: `DTMFToRune` lives in a repository file not
present under `src/`.  Spec 4.1 `digitToSymbol`: 0-9 map to the digit
characters, 10 to star, 11 to hash, 12-15 to letters A-D, anything else
to one fixed fallback symbol (modelled as the null character, the Go
zero rune). -/
def DTMFToRune (event : Nat) : Char :=
  if event ≤ 9 then Char.ofNat (48 + event)
  else if event = 10 then Char.ofNat 42
  else if event = 11 then Char.ofNat 35
  else if event ≤ 15 then Char.ofNat (65 + (event - 12))
  else Char.ofNat 0

/-- Modelled from the spec: `DTMFDecode` lives in a repository file not
present under `src/`.  Spec 4.1: at least 4 bytes; byte 0 is the digit
code; byte 1's high bit is the end-of-event flag and its low 7 bits the
volume; bytes 2-3 are the big-endian duration.  Fewer than 4 bytes is a
`MalformedPayload` error (`none`); on error the caller's zero-valued
event is left untouched. -/
def DTMFDecode (data : List Nat) : Option DTMFEvent :=
  if data.length < 4 then
    none
  else
    some
      { Event := data.getD 0 0
        EndOfEvent := (data.getD 1 0).testBit 7
        Volume := data.getD 1 0 % 128
        Duration := data.getD 2 0 * 256 + data.getD 3 0 }

/-- The local `isNewEvent` test in `processDTMFEvent`: a packet starts a
new press iff its digit or its RTP timestamp differs from the stored
pair. -/
def isNewEvent (w : RTPDtmfReader) (ev : DTMFEvent) (timestamp : Nat) : Bool :=
  w.lastEvent != ev.Event || w.lastTimestamp != timestamp

/-- Method `processDTMFEvent`.  `timestamp` is what the Go code reads
from `w.packetReader.PacketHeader.Timestamp`. -/
def processDTMFEvent (w : RTPDtmfReader) (ev : DTMFEvent) (timestamp : Nat) :
    RTPDtmfReader :=
  if isNewEvent w ev timestamp then
    let w1 := { w with
      lastEvent := ev.Event
      lastTimestamp := timestamp
      endProcessed := false }
    if ev.EndOfEvent then
      { w1 with dtmf := DTMFToRune ev.Event, dtmfSet := true, endProcessed := true }
    else
      w1
  else if ev.EndOfEvent && !w.endProcessed then
    { w with dtmf := DTMFToRune ev.Event, dtmfSet := true, endProcessed := true }
  else
    w

/-- Method `ReadDTMF`: returns the latch contents and always clears the
`dtmfSet` flag. -/
def ReadDTMF (w : RTPDtmfReader) : (Char × Bool) × RTPDtmfReader :=
  ((w.dtmf, w.dtmfSet), { w with dtmfSet := false })

/-- What one call to the wrapped `io.Reader` produced: the bytes placed
into the buffer, the byte count, and the error (`none` for nil). -/
structure UnderlyingRead where
  bytes : List Nat
  n : Nat
  err : Option String
  deriving Repr, DecidableEq

/-- What the adapter's `Read` returns to its caller: the (untouched)
buffer bytes, the byte count, and the error. -/
structure ReadResult where
  bytes : List Nat
  n : Nat
  err : Option String
  deriving Repr, DecidableEq

/-- The zero value `DTMFEvent{}` that `Read` allocates before decoding. -/
def zeroDTMFEvent : DTMFEvent :=
  { Event := 0, EndOfEvent := false, Volume := 0, Duration := 0 }

/-- Method `Read` of the streaming adapter.  `u` is the wrapped reader's
result, `hdr` the packet header polled from the `RTPPacketReader`.
Mirrors the Go control flow: an underlying error is returned as is; a
payload-type mismatch returns without touching detector state; otherwise
the payload is decoded (a decode failure is only logged, leaving the
zero-valued event) and fed to `processDTMFEvent`. -/
def Read (w : RTPDtmfReader) (hdr : RTPHeader) (u : UnderlyingRead) :
    ReadResult × RTPDtmfReader :=
  match u.err with
  | some e => ({ bytes := u.bytes, n := u.n, err := some e }, w)
  | none =>
    if hdr.PayloadType != w.codec.PayloadType then
      ({ bytes := u.bytes, n := u.n, err := none }, w)
    else
      let ev := (DTMFDecode u.bytes).getD zeroDTMFEvent
      ({ bytes := u.bytes, n := u.n, err := none },
        processDTMFEvent w ev hdr.Timestamp)

/-- Drive the detector over a list of (event, packet timestamp) pairs,
polling `ReadDTMF` once after each processed event exactly as the
repository's tests do; returns the per-step poll results and the final
state. -/
def runDTMFTrace : RTPDtmfReader → List (DTMFEvent × Nat) →
    List (Char × Bool) × RTPDtmfReader
  | w, [] => ([], w)
  | w, (ev, ts) :: rest =>
    let w1 := processDTMFEvent w ev ts
    let p := ReadDTMF w1
    let q := runDTMFTrace p.2 rest
    (p.1 :: q.1, q.2)

/-- The sequence of detected symbols collected by the per-step polls. -/
def detectedChars (w : RTPDtmfReader) (evs : List (DTMFEvent × Nat)) :
    List Char :=
  (((runDTMFTrace w evs).1).filter (fun p => p.2)).map (fun p => p.1)

/-- A nonempty run of continuation packets for digit `d`. -/
def ContRun (d : Nat) (es : List DTMFEvent) : Prop :=
  es ≠ [] ∧ ∀ e ∈ es, e.Event = d ∧ e.EndOfEvent = false

/-- A nonempty run of terminal packets for digit `d`. -/
def TermRun (d : Nat) (es : List DTMFEvent) : Prop :=
  es ≠ [] ∧ ∀ e ∈ es, e.Event = d ∧ e.EndOfEvent = true

/-- A full well-formed press: the continuation packets followed by the
terminal packets, all stamped with the one RTP timestamp `ts`. -/
def pressPackets (conts terms : List DTMFEvent) (ts : Nat) :
    List (DTMFEvent × Nat) :=
  (conts ++ terms).map (fun e => (e, ts))

/-! ## Helper lemmas about the detector's runs -/

theorem runDTMFTrace_append (w : RTPDtmfReader) (l1 l2 : List (DTMFEvent × Nat)) :
    runDTMFTrace w (l1 ++ l2)
      = ((runDTMFTrace w l1).1 ++ (runDTMFTrace (runDTMFTrace w l1).2 l2).1,
         (runDTMFTrace (runDTMFTrace w l1).2 l2).2) := by
  induction l1 generalizing w with
  | nil => simp [runDTMFTrace]
  | cons p rest ih => cases p; simp [runDTMFTrace, ih]

/-- Continuation packets of the current press leave the detector state
untouched and never set the latch. -/
theorem runDTMFTrace_cont (c : Codec) (d ts : Nat) (ep : Bool) (ch : Char)
    (es : List DTMFEvent) (h : ∀ e ∈ es, e.Event = d ∧ e.EndOfEvent = false) :
    runDTMFTrace ⟨c, d, ts, ep, ch, false⟩ (es.map (fun e => (e, ts)))
      = (List.replicate es.length (ch, false), ⟨c, d, ts, ep, ch, false⟩) := by
  induction es with
  | nil => simp [runDTMFTrace]
  | cons e rest ih =>
    obtain ⟨hd, he⟩ := h e (List.mem_cons_self _ _)
    have hrest := ih (fun x hx => h x (List.mem_cons_of_mem _ hx))
    simp [runDTMFTrace, processDTMFEvent, isNewEvent, hd, he, ReadDTMF, hrest,
      List.replicate_succ]

/-- Redundant terminal packets after the end has been processed leave
the detector state untouched and never set the latch. -/
theorem runDTMFTrace_dupTerm (c : Codec) (d ts : Nat) (ch : Char)
    (es : List DTMFEvent) (h : ∀ e ∈ es, e.Event = d ∧ e.EndOfEvent = true) :
    runDTMFTrace ⟨c, d, ts, true, ch, false⟩ (es.map (fun e => (e, ts)))
      = (List.replicate es.length (ch, false), ⟨c, d, ts, true, ch, false⟩) := by
  induction es with
  | nil => simp [runDTMFTrace]
  | cons e rest ih =>
    obtain ⟨hd, he⟩ := h e (List.mem_cons_self _ _)
    have hrest := ih (fun x hx => h x (List.mem_cons_of_mem _ hx))
    simp [runDTMFTrace, processDTMFEvent, isNewEvent, hd, he, ReadDTMF, hrest,
      List.replicate_succ]

/-- Running one full well-formed press from any state for which it is a
new press (different stored digit or timestamp) and the latch flag is
clear: the latch fires exactly on the first terminal packet and the
final state records the processed press. -/
theorem runDTMFTrace_press (c : Codec) (le lt : Nat) (ep : Bool) (ch : Char)
    (d ts : Nat) (conts terms : List DTMFEvent)
    (hnew : le ≠ d ∨ lt ≠ ts)
    (hc : ContRun d conts) (ht : TermRun d terms) :
    runDTMFTrace ⟨c, le, lt, ep, ch, false⟩ (pressPackets conts terms ts)
      = (List.replicate conts.length (ch, false)
          ++ (DTMFToRune d, true) :: List.replicate (terms.length - 1) (DTMFToRune d, false),
         ⟨c, d, ts, true, DTMFToRune d, false⟩) := by
  obtain ⟨hcne, hcall⟩ := hc
  obtain ⟨htne, htall⟩ := ht
  obtain ⟨c0, cs, rfl⟩ := List.exists_cons_of_ne_nil hcne
  obtain ⟨t0, tsl, rfl⟩ := List.exists_cons_of_ne_nil htne
  obtain ⟨hc0d, hc0e⟩ := hcall c0 (List.mem_cons_self _ _)
  obtain ⟨ht0d, ht0e⟩ := htall t0 (List.mem_cons_self _ _)
  have hnew1 : isNewEvent ⟨c, le, lt, ep, ch, false⟩ c0 ts = true := by
    simp [isNewEvent, hc0d, Bool.or_eq_true, bne_iff_ne]
    tauto
  have step1 : processDTMFEvent ⟨c, le, lt, ep, ch, false⟩ c0 ts
      = ⟨c, d, ts, false, ch, false⟩ := by
    simp [processDTMFEvent, hnew1, hc0e, hc0d]
  have stepT : processDTMFEvent ⟨c, d, ts, false, ch, false⟩ t0 ts
      = ⟨c, d, ts, true, DTMFToRune d, true⟩ := by
    simp [processDTMFEvent, isNewEvent, ht0d, ht0e]
  have hconts := runDTMFTrace_cont c d ts false ch cs
    (fun x hx => hcall x (List.mem_cons_of_mem _ hx))
  have hterms := runDTMFTrace_dupTerm c d ts (DTMFToRune d) tsl
    (fun x hx => htall x (List.mem_cons_of_mem _ hx))
  simp only [pressPackets, List.cons_append, List.map_cons, List.map_append]
  rw [runDTMFTrace]
  simp only [step1, ReadDTMF]
  rw [runDTMFTrace_append]
  simp only [hconts]
  rw [runDTMFTrace]
  simp only [stepT, ReadDTMF]
  simp only [hterms]
  simp [List.replicate_succ]

/-- Polls that did not fire contribute no detections. -/
theorem filter_replicate_false (N : Nat) (ch : Char) :
    (List.replicate N (ch, false)).filter (fun p : Char × Bool => p.2) = [] := by
  induction N with
  | zero => rfl
  | succ n ih => simp [List.replicate_succ, List.filter_cons, ih]

/-- The detections collected from a press trace: just the one symbol. -/
theorem filter_press_trace (N K : Nat) (ch sym : Char) :
    (((List.replicate N (ch, false) ++ (sym, true) :: List.replicate K (sym, false)).filter
      (fun p : Char × Bool => p.2)).map (fun p : Char × Bool => p.1)) = [sym] := by
  simp [List.filter_append, List.filter_cons, filter_replicate_false]

/-- `processDTMFEvent` never touches the latch on a packet whose
end-of-event flag is clear. -/
theorem processDTMFEvent_not_end_latch (w : RTPDtmfReader) (ev : DTMFEvent)
    (ts : Nat) (h : ev.EndOfEvent = false) :
    (processDTMFEvent w ev ts).dtmf = w.dtmf
    ∧ (processDTMFEvent w ev ts).dtmfSet = w.dtmfSet := by
  unfold processDTMFEvent
  cases hn : isNewEvent w ev ts <;> simp [h, hn]

/-! ## Claim theorems -/

/-- C1: a press fed to `processDTMFEvent` as N ≥ 1 continuation packets
followed by M ≥ 1 terminal packets, all with one digit and one RTP
timestamp, from a quiescent detector for which it is a new press, sets
the latch exactly once, on the first terminal packet: the per-step poll
flags are N times `false`, then `true`, then M-1 times `false`, and the
collected detections are the single symbol.  (`processDTMFEvent` is a
total function, so no packet can produce an error.) -/
theorem C1_press_single_detection (c : Codec) (le lt : Nat) (ep : Bool)
    (ch : Char) (d ts : Nat) (conts terms : List DTMFEvent)
    (hnew : le ≠ d ∨ lt ≠ ts)
    (hc : ContRun d conts) (ht : TermRun d terms) :
    ((runDTMFTrace ⟨c, le, lt, ep, ch, false⟩ (pressPackets conts terms ts)).1.map
        Prod.snd
      = List.replicate conts.length false
          ++ true :: List.replicate (terms.length - 1) false)
    ∧ detectedChars ⟨c, le, lt, ep, ch, false⟩ (pressPackets conts terms ts)
        = [DTMFToRune d] := by
  have h := runDTMFTrace_press c le lt ep ch d ts conts terms hnew hc ht
  constructor
  · rw [h]
    simp [List.map_replicate]
  · unfold detectedChars
    rw [h]
    exact filter_press_trace conts.length (terms.length - 1) ch (DTMFToRune d)

/-- C1 witness: digit 5 pressed as 2 continuation packets and 3
terminal packets at timestamp 4000 from a fresh reader yields flag
trace [false, false, true, false, false] and detections "5". -/
theorem C1_press_single_detection_witness :
    ((runDTMFTrace ⟨⟨101⟩, 255, 0, false, Char.ofNat 0, false⟩
        (pressPackets [⟨5, false, 10, 160⟩, ⟨5, false, 10, 320⟩]
          [⟨5, true, 10, 480⟩, ⟨5, true, 10, 480⟩, ⟨5, true, 10, 480⟩] 4000)).1.map
        Prod.snd
      = List.replicate 2 false ++ true :: List.replicate 2 false)
    ∧ detectedChars ⟨⟨101⟩, 255, 0, false, Char.ofNat 0, false⟩
        (pressPackets [⟨5, false, 10, 160⟩, ⟨5, false, 10, 320⟩]
          [⟨5, true, 10, 480⟩, ⟨5, true, 10, 480⟩, ⟨5, true, 10, 480⟩] 4000)
        = [DTMFToRune 5] :=
  C1_press_single_detection ⟨101⟩ 255 0 false (Char.ofNat 0) 5 4000 _ _
    (Or.inl (by decide))
    ⟨by decide, by decide⟩ ⟨by decide, by decide⟩

/-- C2 counterexample: on a malformed 2-byte payload with matching
payload type, `Read` returns the underlying count with no error, but
the detector state is NOT left unchanged: the zero-valued event is
still processed and rewrites `lastEvent`/`lastTimestamp`. -/
theorem C2_state_changed_counterexample :
    DTMFDecode [1, 2] = none
    ∧ (Read (NewRTPDTMFReader ⟨101⟩ []) ⟨101, 1000⟩ ⟨[1, 2], 2, none⟩).1
        = ⟨[1, 2], 2, none⟩
    ∧ (Read (NewRTPDTMFReader ⟨101⟩ []) ⟨101, 1000⟩ ⟨[1, 2], 2, none⟩).2
        ≠ NewRTPDTMFReader ⟨101⟩ [] := by
  decide

/-- C2 amended: when `DTMFDecode` fails on a matching-payload-type
packet, the failure is not propagated (`Read` returns the underlying
byte count and nil error, bytes untouched) and the latch (`dtmf`,
`dtmfSet`) is unchanged, but detection is not fully skipped: the
zero-valued event is still fed to `processDTMFEvent`, which may rewrite
`lastEvent`, `lastTimestamp` and `endProcessed`. -/
theorem C2_decode_failure_contained (w : RTPDtmfReader) (hdr : RTPHeader)
    (u : UnderlyingRead)
    (hp : hdr.PayloadType = w.codec.PayloadType)
    (he : u.err = none)
    (hd : DTMFDecode u.bytes = none) :
    (Read w hdr u).1 = ⟨u.bytes, u.n, none⟩
    ∧ (Read w hdr u).2 = processDTMFEvent w zeroDTMFEvent hdr.Timestamp
    ∧ (Read w hdr u).2.dtmf = w.dtmf
    ∧ (Read w hdr u).2.dtmfSet = w.dtmfSet := by
  have hread : Read w hdr u
      = (⟨u.bytes, u.n, none⟩, processDTMFEvent w zeroDTMFEvent hdr.Timestamp) := by
    unfold Read
    rw [he]
    simp [hp, hd, Option.getD]
  refine ⟨by rw [hread], by rw [hread], ?_, ?_⟩
  · rw [hread]
    exact (processDTMFEvent_not_end_latch w zeroDTMFEvent hdr.Timestamp rfl).1
  · rw [hread]
    exact (processDTMFEvent_not_end_latch w zeroDTMFEvent hdr.Timestamp rfl).2

/-- C2 witness: a concrete malformed 1-byte packet against a detector
mid-press. -/
theorem C2_decode_failure_contained_witness :
    (Read ⟨⟨101⟩, 3, 7000, true, Char.ofNat 55, true⟩ ⟨101, 8000⟩
        ⟨[5], 1, none⟩).1 = ⟨[5], 1, none⟩
    ∧ (Read ⟨⟨101⟩, 3, 7000, true, Char.ofNat 55, true⟩ ⟨101, 8000⟩
        ⟨[5], 1, none⟩).2
        = processDTMFEvent ⟨⟨101⟩, 3, 7000, true, Char.ofNat 55, true⟩
            zeroDTMFEvent 8000
    ∧ (Read ⟨⟨101⟩, 3, 7000, true, Char.ofNat 55, true⟩ ⟨101, 8000⟩
        ⟨[5], 1, none⟩).2.dtmf = Char.ofNat 55
    ∧ (Read ⟨⟨101⟩, 3, 7000, true, Char.ofNat 55, true⟩ ⟨101, 8000⟩
        ⟨[5], 1, none⟩).2.dtmfSet = true :=
  C2_decode_failure_contained ⟨⟨101⟩, 3, 7000, true, Char.ofNat 55, true⟩
    ⟨101, 8000⟩ ⟨[5], 1, none⟩ (by decide) (by decide) (by decide)

/-- C3: three well-formed presses of the same digit code at three
pairwise-distinct RTP timestamps, fed to a freshly constructed reader,
produce three separate detections; and an event is classified as the
same press iff both its digit code and its packet timestamp equal the
stored pair. -/
theorem C3_distinct_timestamps_separate_presses (c : Codec) (md : List Nat)
    (d t1 t2 t3 : Nat)
    (conts1 terms1 conts2 terms2 conts3 terms3 : List DTMFEvent)
    (hd : d ≤ 15) (h12 : t1 ≠ t2) (h23 : t2 ≠ t3) (h13 : t1 ≠ t3)
    (hc1 : ContRun d conts1) (ht1 : TermRun d terms1)
    (hc2 : ContRun d conts2) (ht2 : TermRun d terms2)
    (hc3 : ContRun d conts3) (ht3 : TermRun d terms3) :
    detectedChars (NewRTPDTMFReader c md)
        (pressPackets conts1 terms1 t1 ++ pressPackets conts2 terms2 t2
          ++ pressPackets conts3 terms3 t3)
      = [DTMFToRune d, DTMFToRune d, DTMFToRune d]
    ∧ ∀ (w : RTPDtmfReader) (ev : DTMFEvent) (u : Nat),
        isNewEvent w ev u = false ↔ w.lastEvent = ev.Event ∧ w.lastTimestamp = u := by
  constructor
  · have hstart : NewRTPDTMFReader c md
        = (⟨c, 255, 0, false, Char.ofNat 0, false⟩ : RTPDtmfReader) := rfl
    have h1 := runDTMFTrace_press c 255 0 false (Char.ofNat 0) d t1 conts1 terms1
      (Or.inl (by omega)) hc1 ht1
    have h2 := runDTMFTrace_press c d t1 true (DTMFToRune d) d t2 conts2 terms2
      (Or.inr h12) hc2 ht2
    have h3 := runDTMFTrace_press c d t2 true (DTMFToRune d) d t3 conts3 terms3
      (Or.inr h23) hc3 ht3
    unfold detectedChars
    rw [hstart]
    simp only [runDTMFTrace_append, h1, h2, h3]
    simp [List.filter_append, List.filter_cons, filter_replicate_false]
  · intro w ev u
    simp [isNewEvent]

/-- C3 witness: digit 1 pressed three times at timestamps 1000, 2000,
3000 yields output "111". -/
theorem C3_distinct_timestamps_separate_presses_witness :
    detectedChars (NewRTPDTMFReader ⟨101⟩ [])
        (pressPackets [⟨1, false, 10, 160⟩] [⟨1, true, 10, 320⟩] 1000
          ++ pressPackets [⟨1, false, 10, 160⟩] [⟨1, true, 10, 320⟩] 2000
          ++ pressPackets [⟨1, false, 10, 160⟩] [⟨1, true, 10, 320⟩] 3000)
      = [Char.ofNat 49, Char.ofNat 49, Char.ofNat 49]
    ∧ ∀ (w : RTPDtmfReader) (ev : DTMFEvent) (u : Nat),
        isNewEvent w ev u = false ↔ w.lastEvent = ev.Event ∧ w.lastTimestamp = u := by
  have h := C3_distinct_timestamps_separate_presses ⟨101⟩ [] 1 1000 2000 3000
    [⟨1, false, 10, 160⟩] [⟨1, true, 10, 320⟩]
    [⟨1, false, 10, 160⟩] [⟨1, true, 10, 320⟩]
    [⟨1, false, 10, 160⟩] [⟨1, true, 10, 320⟩]
    (by decide) (by decide) (by decide) (by decide)
    ⟨by decide, by decide⟩ ⟨by decide, by decide⟩
    ⟨by decide, by decide⟩ ⟨by decide, by decide⟩
    ⟨by decide, by decide⟩ ⟨by decide, by decide⟩
  exact ⟨by rw [h.1]; rfl, h.2⟩

/-- C4: an event that starts a new press (digit or timestamp differs
from the stored pair) and already carries `EndOfEvent = true` produces
its detection immediately on that packet: the latch is set to the
symbol of the digit and `endProcessed` becomes true, with no
continuation packet required beforehand. -/
theorem C4_immediate_end_detection (w : RTPDtmfReader) (ev : DTMFEvent)
    (ts : Nat)
    (hnew : w.lastEvent ≠ ev.Event ∨ w.lastTimestamp ≠ ts)
    (hend : ev.EndOfEvent = true) :
    processDTMFEvent w ev ts
      = ⟨w.codec, ev.Event, ts, true, DTMFToRune ev.Event, true⟩ := by
  have hn : isNewEvent w ev ts = true := by
    simp [isNewEvent, Bool.or_eq_true, bne_iff_ne]
    tauto
  simp [processDTMFEvent, hn, hend]

/-- C4 witness: a lone terminal packet for digit 6 on a fresh reader
immediately latches '6'. -/
theorem C4_immediate_end_detection_witness :
    processDTMFEvent (NewRTPDTMFReader ⟨101⟩ []) ⟨6, true, 10, 200⟩ 6000
      = ⟨⟨101⟩, 6, 6000, true, DTMFToRune 6, true⟩ :=
  C4_immediate_end_detection (NewRTPDTMFReader ⟨101⟩ []) ⟨6, true, 10, 200⟩ 6000
    (Or.inl (by decide)) (by decide)

/-- C5 counterexample: a new press whose very first packet is already
terminal begins a new press, yet `endProcessed` does NOT transition
from true to false — the reset is immediately overwritten by the
emission, leaving the flag true. -/
theorem C5_reset_counterexample :
    isNewEvent ⟨⟨101⟩, 255, 0, true, Char.ofNat 48, false⟩ ⟨6, true, 10, 200⟩
        1000 = true
    ∧ RTPDtmfReader.endProcessed ⟨⟨101⟩, 255, 0, true, Char.ofNat 48, false⟩
        = true
    ∧ (processDTMFEvent ⟨⟨101⟩, 255, 0, true, Char.ofNat 48, false⟩
        ⟨6, true, 10, 200⟩ 1000).endProcessed = true := by
  decide

/-- C5 amended: starting from a state with `endProcessed = true`, one
call to `processDTMFEvent` leaves `endProcessed = false` iff the event
starts a new press AND its `EndOfEvent` flag is clear; in every other
case (in particular a new press whose first packet is terminal, where
the reset is immediately overwritten by the emission) the flag stays
true. -/
theorem C5_endProcessed_reset_characterisation (w : RTPDtmfReader)
    (ev : DTMFEvent) (ts : Nat) (hep : w.endProcessed = true) :
    (processDTMFEvent w ev ts).endProcessed = false
      ↔ isNewEvent w ev ts = true ∧ ev.EndOfEvent = false := by
  unfold processDTMFEvent
  cases hn : isNewEvent w ev ts <;> cases he : ev.EndOfEvent <;>
    simp [hep, hn, he]

/-- C5 witness: a continuation packet of a new press resets the flag. -/
theorem C5_endProcessed_reset_witness :
    ((processDTMFEvent ⟨⟨101⟩, 1, 1000, true, Char.ofNat 49, false⟩
        ⟨2, false, 10, 160⟩ 2000).endProcessed = false
      ↔ isNewEvent ⟨⟨101⟩, 1, 1000, true, Char.ofNat 49, false⟩
          ⟨2, false, 10, 160⟩ 2000 = true
        ∧ DTMFEvent.EndOfEvent ⟨2, false, 10, 160⟩ = false) :=
  C5_endProcessed_reset_characterisation
    ⟨⟨101⟩, 1, 1000, true, Char.ofNat 49, false⟩ ⟨2, false, 10, 160⟩ 2000
    (by decide)

/-- C6: `ReadDTMF` returns the held symbol with the `dtmfSet` flag and
always clears the flag, so a second consecutive call yields
`isSet = false`. -/
theorem C6_read_and_clear (w : RTPDtmfReader) :
    (ReadDTMF w).1 = (w.dtmf, w.dtmfSet)
    ∧ (ReadDTMF w).2.dtmfSet = false
    ∧ (ReadDTMF (ReadDTMF w).2).1.2 = false := by
  simp [ReadDTMF]

/-- C7: a packet whose payload type differs from the negotiated DTMF
payload type leaves the detector state untouched (the decoder is never
reached), and in every case `Read` hands the wrapped reader's bytes,
byte count and error through unchanged. -/
theorem C7_mismatch_frame_passthrough (w : RTPDtmfReader) (hdr : RTPHeader)
    (u : UnderlyingRead) :
    (hdr.PayloadType ≠ w.codec.PayloadType → (Read w hdr u).2 = w)
    ∧ (Read w hdr u).1.bytes = u.bytes
    ∧ (Read w hdr u).1.n = u.n
    ∧ (Read w hdr u).1.err = u.err := by
  rcases he : u.err with _ | e
  · by_cases hp : hdr.PayloadType = w.codec.PayloadType <;>
      simp [Read, he, hp]
  · simp [Read, he]

/-- C7 witness: an audio packet (payload type 0) against a DTMF codec
negotiated at 101. -/
theorem C7_mismatch_frame_passthrough_witness :
    (Read (NewRTPDTMFReader ⟨101⟩ []) ⟨0, 500⟩ ⟨[7, 7, 7, 7], 4, none⟩).2
        = NewRTPDTMFReader ⟨101⟩ []
    ∧ (Read (NewRTPDTMFReader ⟨101⟩ []) ⟨0, 500⟩ ⟨[7, 7, 7, 7], 4, none⟩).1.bytes
        = [7, 7, 7, 7]
    ∧ (Read (NewRTPDTMFReader ⟨101⟩ []) ⟨0, 500⟩ ⟨[7, 7, 7, 7], 4, none⟩).1.n
        = 4 :=
  ⟨(C7_mismatch_frame_passthrough (NewRTPDTMFReader ⟨101⟩ []) ⟨0, 500⟩
      ⟨[7, 7, 7, 7], 4, none⟩).1 (by decide),
   (C7_mismatch_frame_passthrough (NewRTPDTMFReader ⟨101⟩ []) ⟨0, 500⟩
      ⟨[7, 7, 7, 7], 4, none⟩).2.1,
   (C7_mismatch_frame_passthrough (NewRTPDTMFReader ⟨101⟩ []) ⟨0, 500⟩
      ⟨[7, 7, 7, 7], 4, none⟩).2.2.1⟩

/-- C8: the variadic `minDuration` parameter of `NewRTPDTMFReader` has
no effect: any two argument lists construct the same reader state, in
particular the same state as no argument at all; behaviour on every
subsequent input coincides because every operation is a function of
this state. -/
theorem C8_minDuration_ignored (c : Codec) (ds1 ds2 : List Nat) :
    NewRTPDTMFReader c ds1 = NewRTPDTMFReader c ds2
    ∧ NewRTPDTMFReader c ds1 = NewRTPDTMFReader c [] :=
  ⟨rfl, rfl⟩

/-- C9: `ReadDTMF` clears only the `dtmfSet` flag and never the stored
symbol: every other field survives, and an immediate second call
returns the same stale symbol paired with `isSet = false`. -/
theorem C9_clears_only_flag (w : RTPDtmfReader) :
    (ReadDTMF w).2 = { w with dtmfSet := false }
    ∧ (ReadDTMF w).2.dtmf = w.dtmf
    ∧ (ReadDTMF (ReadDTMF w).2).1 = (w.dtmf, false) := by
  simp [ReadDTMF]

end media

namespace diago

/-- The two little-endian bytes `binary.Write` emits for one `int16`
sample: the value's 16-bit two's-complement pattern, low byte first. -/
def int16LEBytes (v : Int) : List Nat :=
  let u := (v % 65536).toNat
  [u % 256, u / 256]

/-- `generateRingTonePCM` of `ringtone.go`.  The per-sample
floating-point computation
`int16(volume * (sin(2 pi f1 t) + sin(2 pi f2 t)) / 2 * MaxInt16)` has
no shallow embedding (floating point), so the `int16` value of sample
`i` is abstracted as the parameter `sampleValue` and every theorem
quantifies over it; the loop structure (`durationSec = 2`,
`numSamples = sampleRate * durationSec` iterations) and the byte layout
(one 16-bit little-endian value appended per sample) are modelled
exactly. -/
def generateRingTonePCM (sampleValue : Nat → Int) (sampleRate : Nat) :
    List Nat :=
  let durationSec := 2
  let numSamples := sampleRate * durationSec
  (List.range numSamples).flatMap (fun i => int16LEBytes (sampleValue i))

theorem length_flatMap_int16 (f : Nat → Int) (n : Nat) :
    ((List.range n).flatMap (fun i => int16LEBytes (f i))).length = 2 * n := by
  induction n with
  | zero => rfl
  | succ m ih =>
    rw [List.range_succ, List.flatMap_append, List.length_append, ih]
    simp [int16LEBytes]
    omega

/-- C10: for every sample rate, `generateRingTonePCM` produces exactly
`2 * sampleRate` 16-bit little-endian samples, i.e. exactly
`4 * sampleRate` bytes — two seconds of audio — whatever the per-sample
values are. -/
theorem C10_ringtone_byte_length (sampleValue : Nat → Int)
    (sampleRate : Nat) :
    (generateRingTonePCM sampleValue sampleRate).length = 4 * sampleRate := by
  show ((List.range (sampleRate * 2)).flatMap
    (fun i => int16LEBytes (sampleValue i))).length = 4 * sampleRate
  rw [length_flatMap_int16]
  omega

end diago
